import Mathlib

set_option autoImplicit false

/-!
Verification of the environment-overview widget
(src/environment-overview.js).

The development shallowly embeds the widget's data-orchestration core:
the data model (overview / env / stats / counts / tab caches), the
Data Source Gateway (`_api`), the Staged Loader (`_loadData`,
`_loadTabData`, `_hardRefresh`, `_switchTab`), the Refresh Scheduler
(`_maybeStartRefresh`, `_refreshOverview`), the Context Resolver
(`_tryUrlContext`), and the pure State Derivation functions
(`_hasKubernetes`, `_buildLaunchReadiness` checks, `_headerCTAs`,
the deploy-health percentage of `_renderCards`).

Modelling conventions:
  - JS `null`/`undefined` fields become `Option`; `x || 0` becomes
    `Option.getD 0`; JS truthiness of a string is `some s` with
    `s` non-empty.
  - Each asynchronous operation is a pure function from the current
    widget state and the results its fetches will produce (supplied by
    an oracle argument) to the next widget state together with the list
    of network fetches the operation issues.  This is the standard
    event-loop collapse: JS continuations run to completion between
    suspension points, so one operation = one state transition.
  - `setInterval`/`clearInterval` become a Boolean `refreshTimer` flag
    (at most one timer exists; starting always clears the old one).
  - Number arithmetic of the deploy-health percentage is modelled
    exactly over `ℚ`; `Math.round` on the non-negative values involved
    is `fun q => ⌊q + 1/2⌋₊` (round half toward positive infinity).
  - Rendering, CSS and DOM wiring are out of scope; of `_renderAll`
    only its top-level decision (boot error vs dashboard) is kept.
-/

/-- The five tab identifiers of the tabs bar. -/
inductive Tab where
  | overview
  | releases
  | resources
  | config
  | schedule
deriving DecidableEq, Repr

/-- The distinct network fetches the widget can issue (one constructor
per endpoint used by the loader core). -/
inductive FetchReq where
  | resolveInfo        -- clusters/stack/{s}/cluster/{c}/info  (_resolveClusterId)
  | overviewFetch      -- deployments/overview
  | resourceStatsFetch -- resource-stats
  | varCountsFetch     -- variable-counts
  | costProbe          -- cost-explorer/aws/enabled  (_loadSecondary)
  | deploymentsPage    -- deployments?size=25&page=0 (releases tab)
  | resourcesInfo      -- dropdown resources-info (resources tab)
  | ingressRules       -- k8s-explorer/ingress-rules (resources tab, K8s only)
  | scheduleList       -- availability-schedule (schedule tab)
  | maintenanceWindow  -- maintenance-window (schedule tab)
deriving DecidableEq, Repr

/-- deploymentsStats record of the overview payload (duck-typed fields). -/
structure DeploymentsStats where
  successReleases : Option Nat
  failedReleases : Option Nat
  noChangeReleases : Option Nat
  isFirstRelease : Option Bool
deriving DecidableEq, Repr

/-- The cluster object (`overview.cluster`), restricted to the fields the
orchestration core reads. `componentVersionKeys` are the key names of
`env.componentVersions`; `configured` is the truthiness of
`env.configured`; `stackProjectTypeId` is `env.stack && env.stack.projectTypeId`. -/
structure EnvR where
  clusterState : Option String
  cloud : Option String
  hasK8sCredentials : Option Bool
  cloudAccountId : Option String
  configured : Bool
  componentVersionKeys : List String
  stackProjectTypeId : Option String
deriving DecidableEq, Repr

/-- The overview payload (`/deployments/overview`), restricted to the
fields the loader and scheduler read. In-progress deployments are kept
as their ids. -/
structure Overview where
  cluster : Option EnvR
  inProgressDeployments : List Nat
  deploymentsStats : Option DeploymentsStats
deriving DecidableEq, Repr

/-- variable-counts payload. -/
structure VarCounts where
  variableCount : Option Nat
  secretCount : Option Nat
deriving DecidableEq, Repr

/-- Result of the cost-explorer probe: the JSON can be absent, a raw
boolean, or an object carrying `enabled`. -/
inductive CostResp where
  | absent
  | rawBool (b : Bool)
  | obj (enabled : Option Bool)
deriving DecidableEq, Repr

/-- `this.costEnabled = costData === true || (costData && costData.enabled === true)`. -/
def costEnabledOf : CostResp → Bool
  | CostResp.absent => false
  | CostResp.rawBool b => b
  | CostResp.obj e => e = some true

/-- JS truthiness of an optional string (`null`, `undefined` and `""` are falsy). -/
def truthyS : Option String → Bool
  | some s => !s.isEmpty
  | none => false

/-- The widget's mutable instance fields (constructor of
`EnvironmentOverview`), restricted to the orchestration core.
Lazy payloads are abstracted to `Nat` handles: the claims only observe
presence/absence and which fetches were issued. -/
structure WidgetState where
  clusterId : Option String
  overview : Option Overview
  env : Option EnvR
  resourceStats : Option Nat
  varCounts : Option VarCounts
  deployments : Option Nat
  resources : Option Nat
  ingresses : Option Nat
  schedule : Option Nat
  maintenanceWin : Option Nat
  costEnabled : Bool
  activeTab : Tab
  isLoading : Bool
  error : Option String
  refreshTimer : Bool
deriving DecidableEq, Repr

/-- Initial state after the constructor plus `connectedCallback` reading a
`cluster-id` attribute. -/
def initState (cid : Option String) : WidgetState :=
  { clusterId := cid, overview := none, env := none, resourceStats := none,
    varCounts := none, deployments := none, resources := none, ingresses := none,
    schedule := none, maintenanceWin := none, costEnabled := false,
    activeTab := Tab.overview, isLoading := true, error := none,
    refreshTimer := false }

/-- Substring search on character lists (for `k.toLowerCase().includes(...)`). -/
def startsWithL (needle hay : List Char) : Bool :=
  match needle with
  | [] => true
  | n :: ns =>
    match hay with
    | [] => false
    | h :: hs => n == h && startsWithL ns hs

/-- `hay` contains `needle` as a contiguous substring. -/
def containsSub (needle : List Char) : List Char → Bool
  | [] => startsWithL needle []
  | c :: t => startsWithL needle (c :: t) || containsSub needle t

/-- `_hasKubernetes` over a non-null env: cloud is KUBERNETES, or the
explicit credentials flag is `true`, or some componentVersions key name
contains "kubernetes" or "k8s" case-insensitively. -/
def hasKubernetesEnv (env : EnvR) : Bool :=
  env.cloud == some "KUBERNETES" || env.hasK8sCredentials == some true ||
  env.componentVersionKeys.any (fun k =>
    containsSub "kubernetes".toList k.toLower.toList ||
    containsSub "k8s".toList k.toLower.toList)

/-- `_hasKubernetes`: `if (!env) return false` then the env checks. -/
def hasKubernetes (s : WidgetState) : Bool :=
  match s.env with
  | none => false
  | some e => hasKubernetesEnv e

/-- The four transitional cluster states that keep the poll alive
(`activeStates` in `_maybeStartRefresh` / `_refreshOverview`). -/
def activeStates : List String :=
  ["LAUNCHING", "DESTROYING", "SCALING_UP", "SCALING_DOWN"]

/-- `pollingActive` as computed by the code:
`inProgress = overview && overview.inProgressDeployments.length > 0`,
`state = env && env.clusterState`, active iff
`inProgress || activeStates.indexOf(state) !== -1`. -/
def pollingActiveState (s : WidgetState) : Bool :=
  (match s.overview with
   | some o => !o.inProgressDeployments.isEmpty
   | none => false) ||
  (match s.env with
   | some e =>
     match e.clusterState with
     | some st => activeStates.contains st
     | none => false
   | none => false)

/-- `_maybeStartRefresh`: if polling is active, (re)start the interval
timer (any prior timer is cleared first, so the flag just becomes true);
otherwise do nothing — in particular an already-running timer is left
running. -/
def maybeStartRefresh (s : WidgetState) : WidgetState :=
  if pollingActiveState s then { s with refreshTimer := true } else s

/-- `_resolveClusterId`: the cached id short-circuits the resolution
fetch; otherwise the outcome of the name-to-id call (`remote`) decides:
`Except.error m` stands for the rejected promise / thrown error
(non-ok response, transport failure or body-parse failure), carrying
the resulting `err.message`. -/
def resolveOutcome (s : WidgetState) (remote : Except String String) :
    Except String String :=
  match s.clusterId with
  | some c => Except.ok c
  | none => remote

/-- Fetches issued by `_resolveClusterId`. -/
def resolveFetches (s : WidgetState) : List FetchReq :=
  match s.clusterId with
  | some _ => []
  | none => [FetchReq.resolveInfo]

deriving instance DecidableEq for Except

/-- Oracle results for one `_loadData` run: the identity resolution
outcome and the (each independently nullable) critical and secondary
payloads. -/
structure CriticalResults where
  remote : Except String String
  ov : Option Overview
  stats : Option Nat
  vars : Option VarCounts
  cost : CostResp
deriving DecidableEq, Repr

/-- `_loadData` (with the `_loadSecondary` continuation folded in — it
only sets `costEnabled` — and `_maybeStartRefresh` applied at the end,
exactly as in the source): on identity failure the catch block sets
`isLoading := false` and `error := err.message` and touches nothing
else; on success the three critical payloads are stored
(`env := overview && overview.cluster ? overview.cluster : null`),
the cost probe result is stored and the refresh timer is maybe
started. The second component lists the fetches the run issues. -/
def loadData (s : WidgetState) (r : CriticalResults) :
    WidgetState × List FetchReq :=
  match resolveOutcome s r.remote with
  | Except.error m =>
    ({ s with isLoading := false, error := some m }, resolveFetches s)
  | Except.ok cid =>
    let s1 : WidgetState :=
      { s with clusterId := some cid,
               overview := r.ov,
               env := match r.ov with
                      | some o => o.cluster
                      | none => none,
               resourceStats := r.stats,
               varCounts := r.vars,
               isLoading := false }
    let s2 : WidgetState := { s1 with costEnabled := costEnabledOf r.cost }
    (maybeStartRefresh s2,
     resolveFetches s ++
       [FetchReq.overviewFetch, FetchReq.resourceStatsFetch,
        FetchReq.varCountsFetch, FetchReq.costProbe])

/-- Oracle results for one `_loadTabData` run. -/
structure TabResults where
  deployments : Option Nat
  resources : Option Nat
  ingresses : Option Nat
  schedule : Option Nat
  maintenanceWin : Option Nat
deriving DecidableEq, Repr

/-- `_loadTabData`: each lazy tab fetches only while its own cache field
is null; the ingress fetch is issued only when `_hasKubernetes()` holds
(otherwise the slot is set from `Promise.resolve(null)`). -/
def loadTabData (s : WidgetState) (tab : Tab) (r : TabResults) :
    WidgetState × List FetchReq :=
  if tab = Tab.releases ∧ s.deployments = none then
    ({ s with deployments := r.deployments }, [FetchReq.deploymentsPage])
  else if tab = Tab.resources ∧ s.resources = none then
    if hasKubernetes s then
      ({ s with resources := r.resources, ingresses := r.ingresses },
       [FetchReq.resourcesInfo, FetchReq.ingressRules])
    else
      ({ s with resources := r.resources, ingresses := none },
       [FetchReq.resourcesInfo])
  else if tab = Tab.schedule ∧ s.schedule = none then
    ({ s with schedule := r.schedule, maintenanceWin := r.maintenanceWin },
     [FetchReq.scheduleList, FetchReq.maintenanceWindow])
  else (s, [])

/-- `_switchTab`: set the active tab, re-render, then `_loadTabData`. -/
def switchTab (s : WidgetState) (tab : Tab) (r : TabResults) :
    WidgetState × List FetchReq :=
  loadTabData { s with activeTab := tab } tab r

/-- The cache field guarding each lazy tab's fetch set. -/
def tabCacheF (s : WidgetState) : Tab → Option Nat
  | Tab.releases => s.deployments
  | Tab.resources => s.resources
  | Tab.schedule => s.schedule
  | _ => none

/-- `_hardRefresh` before its `_loadData()` call: null out the nine
cached data fields and raise the loading overlay. Note: neither
`clusterId`, nor `error`, nor the running refresh timer is touched. -/
def hardRefreshClear (s : WidgetState) : WidgetState :=
  { s with overview := none, env := none, resourceStats := none,
           varCounts := none, deployments := none, resources := none,
           ingresses := none, schedule := none, maintenanceWin := none,
           isLoading := true }

/-- The whole hard-reload operation: clear, then run `_loadData`. -/
def hardRefresh (s : WidgetState) (r : CriticalResults) :
    WidgetState × List FetchReq :=
  loadData (hardRefreshClear s) r

/-- `_refreshOverview` (one timer tick): fetch the overview; an absent
response returns without touching anything; otherwise store it
(`env = fresh.cluster || this.env`), recompute polling activity from the
fresh data and clear the timer when it is inactive. -/
def refreshOverview (s : WidgetState) (fresh : Option Overview) :
    WidgetState × List FetchReq :=
  match fresh with
  | none => (s, [FetchReq.overviewFetch])
  | some f =>
    let s1 : WidgetState :=
      { s with overview := some f,
               env := match f.cluster with
                      | some e => some e
                      | none => s.env }
    if pollingActiveState s1 then (s1, [FetchReq.overviewFetch])
    else ({ s1 with refreshTimer := false }, [FetchReq.overviewFetch])

/-- The lazy per-tab fetches, as opposed to identity/critical/secondary ones. -/
def isLazyFetch : FetchReq → Bool
  | FetchReq.deploymentsPage => true
  | FetchReq.resourcesInfo => true
  | FetchReq.ingressRules => true
  | FetchReq.scheduleList => true
  | FetchReq.maintenanceWindow => true
  | _ => false

/-- The session is in the terminal Failed state when a boot error message
was recorded. -/
def sessionFailed (s : WidgetState) : Bool :=
  truthyS s.error

/-- Top-level decision of `_renderAll`: `if (this.error && !this.env)`
show only the unrecoverable boot error, else render the dashboard
sections. -/
inductive RenderMode where
  | bootError
  | dashboard
deriving DecidableEq, Repr

/-- See `RenderMode`. -/
def renderAllMode (s : WidgetState) : RenderMode :=
  if truthyS s.error && s.env.isNone then RenderMode.bootError
  else RenderMode.dashboard

/-- The Data Source Gateway's view of one `fetch(path)`: the promise may
reject (transport failure), or resolve to a response whose `ok` flag and
body-parse outcome are given. -/
inductive FetchOutcome (α : Type) where
  | transportError
  | response (ok : Bool) (body : Except String α)

/-- `_api(path)`: `try { const r = await fetch(path); if (!r.ok) return
null; return await r.json(); } catch { return null; }`. -/
def apiFetch {α : Type} : FetchOutcome α → Option α
  | FetchOutcome.transportError => none
  | FetchOutcome.response ok body =>
    if ok then
      match body with
      | Except.ok d => some d
      | Except.error _ => none
    else none

/-- One header call-to-action button (`{ l, a, p, d }` entries of
`_headerCTAs`; a missing `d` is the falsy `undefined`). -/
structure CTA where
  label : String
  action : String
  primaryBtn : Bool
  danger : Bool
deriving DecidableEq, Repr

/-- The `maps` table of `_headerCTAs`, as an association list (JS object
property lookup). -/
def ctaTable : List (String × List CTA) :=
  [("STOPPED",
    [⟨"Launch", "launch", true, false⟩,
     ⟨"Run Plan", "plan", false, false⟩]),
   ("RUNNING",
    [⟨"Trigger Release", "trigger-release", true, false⟩,
     ⟨"Hotfix", "trigger-hotfix", false, false⟩,
     ⟨"Scale Down", "scale-down", false, false⟩,
     ⟨"Destroy", "destroy", false, true⟩]),
   ("SCALE_DOWN",
    [⟨"Scale Up", "scale-up", true, false⟩,
     ⟨"Trigger Release", "trigger-release", false, false⟩,
     ⟨"Destroy", "destroy", false, true⟩]),
   ("LAUNCH_FAILED",
    [⟨"Retry Launch", "launch", true, false⟩,
     ⟨"Run Plan", "plan", false, false⟩]),
   ("DESTROY_FAILED",
    [⟨"Retry Destroy", "destroy", true, true⟩]),
   ("SCALE_UP_FAILED",
    [⟨"Retry Scale Up", "scale-up", true, false⟩]),
   ("SCALE_DOWN_FAILED",
    [⟨"Retry Scale Down", "scale-down", true, false⟩]),
   ("LAUNCHING", []),
   ("DESTROYING", []),
   ("SCALING_UP", []),
   ("SCALING_DOWN", [])]

/-- `_headerCTAs`: `const ctas = maps[state] || maps.STOPPED` (an empty
array is truthy in JS, so a mapped transitional state keeps its empty
action set; only a state absent from the table falls back). -/
def headerCTAs (state : String) : List CTA :=
  match ctaTable.find? (fun p => p.1 == state) with
  | some p => p.2
  | none =>
    [⟨"Launch", "launch", true, false⟩,
     ⟨"Run Plan", "plan", false, false⟩]

/-- The cluster states that appear as keys of the `_headerCTAs` table. -/
def ctaMappedStates : List String := ctaTable.map (fun p => p.1)

/-- One readiness-checklist row as the derivation logic sees it
(label/hint strings are presentation and omitted). -/
structure RCheck where
  ok : Bool
  skip : Bool
deriving DecidableEq, Repr

/-- `hasVars` of `_buildLaunchReadiness`:
`(this.varCounts && ((varCounts.variableCount || 0) + (varCounts.secretCount || 0))) > 0`. -/
def hasVarsOf : Option VarCounts → Bool
  | none => false
  | some v => 0 < v.variableCount.getD 0 + v.secretCount.getD 0

/-- The four ordered legacy readiness checks of `_buildLaunchReadiness`,
before the `.filter(c => !c.skip)`: configuration completeness, cloud
account linkage, Kubernetes credentials (skipped when `_hasKubernetes()`
is false), and presence of at least one variable. -/
def legacyChecks (env : EnvR) (vc : Option VarCounts) : List RCheck :=
  let hasK8s := hasKubernetesEnv env
  [⟨env.configured, false⟩,
   ⟨truthyS env.cloudAccountId, false⟩,
   ⟨!hasK8s || env.hasK8sCredentials == some true, !hasK8s⟩,
   ⟨hasVarsOf vc, false⟩]

/-- The checklist after dropping skipped checks (`checks.filter(c => !c.skip)`). -/
def launchReadinessChecks (env : EnvR) (vc : Option VarCounts) : List RCheck :=
  (legacyChecks env vc).filter (fun c => !c.skip)

/-- `allOk = checks.every(c => c.ok)` over the non-skipped checks. -/
def launchReadinessAllOk (env : EnvR) (vc : Option VarCounts) : Bool :=
  (launchReadinessChecks env vc).all (fun c => c.ok)

/-- `Math.round` as used on the non-negative deploy-health ratio:
round half toward positive infinity. -/
def mathRound (q : ℚ) : ℕ := ⌊q + 1 / 2⌋₊

/-- Deploy-health computation of `_renderCards`:
`depTotal = (success||0) + (failed||0) + (noChange||0)`;
`succPct = depTotal > 0 ? Math.round((success||0) / depTotal * 100) : null`. -/
def succPct (ds : DeploymentsStats) : Option ℕ :=
  let s := ds.successReleases.getD 0
  let f := ds.failedReleases.getD 0
  let n := ds.noChangeReleases.getD 0
  let depTotal := s + f + n
  if 0 < depTotal then some (mathRound ((s : ℚ) / (depTotal : ℚ) * 100))
  else none

/-- Characters allowed inside a captured segment of the route pattern
(the regex class excludes `/`, `?` and `#`). -/
def segChar (c : Char) : Bool :=
  !(c == '/' || c == '?' || c == '#')

/-- Take the maximal non-empty run of segment characters. This is
exactly what the greedy `([^\/\?#]+)` matches: a shorter capture cannot
help, because the character after a shortened capture would still be a
segment character and never the literal `/` the pattern needs next. -/
def parseSeg (l : List Char) : Option (List Char × List Char) :=
  match l.takeWhile segChar with
  | [] => none
  | c :: cs => some (c :: cs, l.dropWhile segChar)

/-- Consume an exact literal character sequence. -/
def dropLit : List Char → List Char → Option (List Char)
  | [], l => some l
  | _ :: _, [] => none
  | p :: ps, c :: cs => if c == p then dropLit ps cs else none

/-- Try the pattern `/projects/{stack}/environments/{cluster}` anchored
at the start of `l`; on success return the two captures. -/
def tryAt (l : List Char) : Option (List Char × List Char) :=
  match dropLit "/projects/".toList l with
  | none => none
  | some r1 =>
    match parseSeg r1 with
    | none => none
    | some (a, r2) =>
      match dropLit "/environments/".toList r2 with
      | none => none
      | some r3 =>
        match parseSeg r3 with
        | none => none
        | some (b, _) => some (a, b)

/-- First match of the route pattern, scanning start positions left to
right exactly as the regex engine does. -/
def matchProjEnv : List Char → Option (List Char × List Char)
  | [] => none
  | c :: cs =>
    match tryAt (c :: cs) with
    | some r => some r
    | none => matchProjEnv cs

/-- Value of one hexadecimal digit (codepoints 0-9, A-F, a-f). -/
def hexDigit (c : Char) : Option Nat :=
  let n := c.toNat
  if 48 ≤ n ∧ n ≤ 57 then some (n - 48)
  else if 65 ≤ n ∧ n ≤ 70 then some (n - 55)
  else if 97 ≤ n ∧ n ≤ 102 then some (n - 87)
  else none

/-- Byte value of two hexadecimal digits. -/
def hexPair (h1 h2 : Char) : Option Nat :=
  match hexDigit h1, hexDigit h2 with
  | some a, some b => some (16 * a + b)
  | _, _ => none

/-- A byte is in the given inclusive range. -/
def inByteRange (b lo hi : Nat) : Bool :=
  lo ≤ b && b ≤ hi

/-- `decodeURIComponent`: literal characters pass through; a `%XY`
escape yields a byte, and bytes ≥ 0x80 must form a valid UTF-8 sequence
whose continuation bytes are themselves `%`-escaped, with the WHATWG
second-byte restrictions (no overlong forms, no surrogates, max
U+10FFFF). `none` models the thrown `URIError`. -/
def pctDecode : List Char → Option (List Char)
  | [] => some []
  | '%' :: h1 :: h2 :: t =>
    match hexPair h1 h2 with
    | none => none
    | some b =>
      if b < 0x80 then (pctDecode t).map (fun r => Char.ofNat b :: r)
      else if inByteRange b 0xC2 0xDF then
        match t with
        | '%' :: g1 :: g2 :: t2 =>
          match hexPair g1 g2 with
          | some c1 =>
            if inByteRange c1 0x80 0xBF then
              (pctDecode t2).map
                (fun r => Char.ofNat ((b - 0xC0) * 64 + (c1 - 0x80)) :: r)
            else none
          | none => none
        | _ => none
      else if inByteRange b 0xE0 0xEF then
        match t with
        | '%' :: g1 :: g2 :: '%' :: g3 :: g4 :: t2 =>
          match hexPair g1 g2, hexPair g3 g4 with
          | some c1, some c2 =>
            let lo1 := if b == 0xE0 then 0xA0 else 0x80
            let hi1 := if b == 0xED then 0x9F else 0xBF
            if inByteRange c1 lo1 hi1 && inByteRange c2 0x80 0xBF then
              (pctDecode t2).map
                (fun r =>
                  Char.ofNat ((b - 0xE0) * 4096 + (c1 - 0x80) * 64 + (c2 - 0x80)) :: r)
            else none
          | _, _ => none
        | _ => none
      else if inByteRange b 0xF0 0xF4 then
        match t with
        | '%' :: g1 :: g2 :: '%' :: g3 :: g4 :: '%' :: g5 :: g6 :: t2 =>
          match hexPair g1 g2, hexPair g3 g4, hexPair g5 g6 with
          | some c1, some c2, some c3 =>
            let lo1 := if b == 0xF0 then 0x90 else 0x80
            let hi1 := if b == 0xF4 then 0x8F else 0xBF
            if inByteRange c1 lo1 hi1 && inByteRange c2 0x80 0xBF &&
                inByteRange c3 0x80 0xBF then
              (pctDecode t2).map
                (fun r =>
                  Char.ofNat ((b - 0xF0) * 262144 + (c1 - 0x80) * 4096 +
                    (c2 - 0x80) * 64 + (c3 - 0x80)) :: r)
            else none
          | _, _, _ => none
        | _ => none
      else none
  | '%' :: _ => none
  | c :: t => (pctDecode t).map (fun r => c :: r)

/-- The navigable location as `_tryUrlContext` reads it:
`window.location.pathname`, `.hash` and `.search` as raw strings, plus
the `URLSearchParams` view of the search string as ordered key/value
pairs (the parsing of the query string itself is taken as given). -/
structure UrlLoc where
  pathname : String
  hashStr : String
  searchStr : String
  searchParams : List (String × String)
deriving DecidableEq, Repr

/-- Resolver result record (`{ clusterId, stackName, clusterName }`). -/
structure UrlCtxResult where
  clusterId : Option String
  stackName : Option String
  clusterName : Option String
deriving DecidableEq, Repr

/-- `URLSearchParams.get`: first pair with the given key. -/
def qpGet (ps : List (String × String)) (k : String) : Option String :=
  (ps.find? (fun p => p.1 == k)).map (fun p => p.2)

/-- Percent-decode the two captures in order. The source assigns
`result.stackName` before decoding the second capture, so a `URIError`
on the second capture is caught with the first name already stored. -/
def decodePair (a b : List Char) : UrlCtxResult :=
  match pctDecode a with
  | none => ⟨none, none, none⟩
  | some sa =>
    match pctDecode b with
    | none => ⟨none, some (String.mk sa), none⟩
    | some sb => ⟨none, some (String.mk sa), some (String.mk sb)⟩

/-- `_tryUrlContext`: query parameter `clusterId` (then `cluster-id`)
first; otherwise the route pattern searched in
`full = pathname + hash + search`; otherwise the same pattern in the
hash alone; otherwise no context. Exceptions (malformed percent
escapes) are swallowed, returning whatever fields were already set. -/
def tryUrlContext (u : UrlLoc) : UrlCtxResult :=
  let full := u.pathname ++ u.hashStr ++ u.searchStr
  if truthyS (qpGet u.searchParams "clusterId") then
    ⟨qpGet u.searchParams "clusterId", none, none⟩
  else if truthyS (qpGet u.searchParams "cluster-id") then
    ⟨qpGet u.searchParams "cluster-id", none, none⟩
  else
    match matchProjEnv full.toList with
    | some (a, b) => decodePair a b
    | none =>
      match matchProjEnv u.hashStr.toList with
      | some (a, b) => decodePair a b
      | none => ⟨none, none, none⟩

/-- A character that terminates the portion of the location preceding it:
a real `window.location.hash` starts with `#` and a real
`window.location.search` starts with `?`. -/
def hashQ (c : Char) : Bool :=
  c == '#' || c == '?'

/-- The list is empty or starts with a portion separator, so no route
pattern match can begin inside the previous portion and continue into
this one. -/
def blockedL : List Char → Bool
  | [] => true
  | c :: _ => hashQ c

/-- String form of `blockedL`. -/
def blockedStr (s : String) : Bool :=
  blockedL s.toList

/-- Example fixtures: a cluster in the transitional LAUNCHING state and
the same cluster once RUNNING, with no in-progress deployments. -/
def envLaunching : EnvR :=
  ⟨some "LAUNCHING", some "AWS", none, some "acct-1", true, [], none⟩

/-- RUNNING variant of the example cluster. -/
def envRunning : EnvR :=
  ⟨some "RUNNING", some "AWS", none, some "acct-1", true, [], none⟩

/-- Overview payload while launching (no in-progress deployments, so
polling stays active through the LAUNCHING state alone). -/
def ovLaunching : Overview := ⟨some envLaunching, [], none⟩

/-- Overview payload once running, with a 3/1/0 deployments-stats record. -/
def ovRunning : Overview :=
  ⟨some envRunning, [], some ⟨some 3, some 1, some 0, none⟩⟩

/-- Example variable counts. -/
def vcEx : VarCounts := ⟨some 2, some 1⟩

/-- Critical-phase results returning the launching overview. -/
def rLaunch : CriticalResults :=
  ⟨Except.ok "c1", some ovLaunching, some 4, some vcEx, CostResp.absent⟩

/-- Critical-phase results returning the running overview. -/
def rRun : CriticalResults :=
  ⟨Except.ok "c1", some ovRunning, some 4, some vcEx, CostResp.absent⟩

/-- Lazy-tab results where every fetch comes back absent. -/
def tabNoneR : TabResults := ⟨none, none, none, none, none⟩

/-- Lazy-tab results where the releases page comes back with data. -/
def tabSomeR : TabResults := ⟨some 7, none, none, none, none⟩

/-- Session state right after a critical phase that observed LAUNCHING:
the refresh timer is running. -/
def sLaunch : WidgetState := (loadData (initState (some "c1")) rLaunch).1

/-- Session state right after a critical phase that observed RUNNING. -/
def sRun : WidgetState := (loadData (initState (some "c1")) rRun).1

/-- State after a hard reload of the launching session whose new
critical phase observes RUNNING: polling is inactive but the old timer
was never cancelled. -/
def sHard : WidgetState := (hardRefresh sLaunch rRun).1

/-- Running session that has selected the releases tab and cached its
page. -/
def sTabCached : WidgetState := (switchTab sRun Tab.releases tabSomeR).1

/-- Location of the first Context Resolver scenario:
`/somewhere?clusterId=abc123`. -/
def locQuery : UrlLoc :=
  ⟨"/somewhere", "", "?clusterId=abc123", [("clusterId", "abc123")]⟩

/-- Location of the second Context Resolver scenario:
`/projects/Acme/environments/prod-1` with no query and no hash. -/
def locPath : UrlLoc :=
  ⟨"/projects/Acme/environments/prod-1", "", "", []⟩

/-- Critical-phase results whose identity resolution fails with the
message `_resolveClusterId` throws on a non-ok response. -/
def rBoom : CriticalResults :=
  ⟨Except.error "Could not resolve cluster ID from name", none, none, none,
    CostResp.absent⟩

/-! ## Helper lemmas -/

/-- Starting the refresh timer merges with a possibly-running one: the
flag afterwards is `pollingActive || old flag`. -/
theorem maybeStartRefresh_eq (s : WidgetState) :
    maybeStartRefresh s =
      { s with refreshTimer := pollingActiveState s || s.refreshTimer } := by
  unfold maybeStartRefresh
  rcases h : pollingActiveState s <;> simp [h]

/-- Polling activity does not read the timer flag. -/
theorem pollingActive_timer_irrel (s : WidgetState) (b : Bool) :
    pollingActiveState { s with refreshTimer := b } = pollingActiveState s := rfl

/-- Rounding the success ratio reduces to one natural division. -/
theorem mathRound_ratio (s total : ℕ) (h : 0 < total) :
    mathRound ((s : ℚ) / (total : ℚ) * 100) = (200 * s + total) / (2 * total) := by
  have ht : (total : ℚ) ≠ 0 := Nat.cast_ne_zero.mpr h.ne'
  have h2 : (s : ℚ) / (total : ℚ) * 100 + 1 / 2
      = ((200 * s + total : ℕ) : ℚ) / ((2 * total : ℕ) : ℚ) := by
    push_cast
    field_simp
    ring
  unfold mathRound
  rw [h2, Nat.floor_div_nat, Nat.floor_natCast]

/-! ## Claim theorems -/

/-- Claim C6: the Data Source Gateway fetch wrapper never raises: a
transport failure, a non-success HTTP response, and a body-parsing
failure all normalize to `none`, while a successful parsed response
yields the data; in every case the result is one of these two shapes. -/
theorem api_gateway_never_raises :
    (∀ α : Type, apiFetch (FetchOutcome.transportError : FetchOutcome α) = none) ∧
    (∀ (α : Type) (b : Except String α), apiFetch (FetchOutcome.response false b) = none) ∧
    (∀ (α : Type) (e : String),
      apiFetch (FetchOutcome.response true (Except.error e) : FetchOutcome α) = none) ∧
    (∀ (α : Type) (d : α), apiFetch (FetchOutcome.response true (Except.ok d)) = some d) ∧
    (∀ (α : Type) (o : FetchOutcome α), apiFetch o = none ∨ ∃ d, apiFetch o = some d) := by
  refine ⟨fun α => rfl, fun α b => rfl, fun α e => rfl, fun α d => rfl, fun α o => ?_⟩
  rcases h : apiFetch o with _ | d
  · exact Or.inl rfl
  · exact Or.inr ⟨d, rfl⟩

/-- Claim C7: the deploy-health percentage is
`round(success / (success + failed + noChange) * 100)` whenever the
denominator is positive (equivalently, the natural division
`(200·success + total) / (2·total)`), is `none` — never a division
artifact — when the denominator is zero, and the 3/1/0 record yields 75. -/
theorem deploy_health_percentage (ds : DeploymentsStats) :
    (0 < ds.successReleases.getD 0 + ds.failedReleases.getD 0 + ds.noChangeReleases.getD 0 →
      succPct ds = some (mathRound
        ((ds.successReleases.getD 0 : ℚ) /
          ((ds.successReleases.getD 0 + ds.failedReleases.getD 0 +
            ds.noChangeReleases.getD 0 : ℕ) : ℚ) * 100)) ∧
      succPct ds = some ((200 * ds.successReleases.getD 0 +
          (ds.successReleases.getD 0 + ds.failedReleases.getD 0 +
            ds.noChangeReleases.getD 0)) /
        (2 * (ds.successReleases.getD 0 + ds.failedReleases.getD 0 +
            ds.noChangeReleases.getD 0)))) ∧
    (ds.successReleases.getD 0 + ds.failedReleases.getD 0 + ds.noChangeReleases.getD 0 = 0 →
      succPct ds = none) ∧
    succPct ⟨some 3, some 1, some 0, none⟩ = some 75 := by
  refine ⟨fun h => ⟨?_, ?_⟩, fun h => ?_, ?_⟩
  · simp [succPct, h]
  · rw [show succPct ds = some (mathRound
        ((ds.successReleases.getD 0 : ℚ) /
          ((ds.successReleases.getD 0 + ds.failedReleases.getD 0 +
            ds.noChangeReleases.getD 0 : ℕ) : ℚ) * 100)) from by simp [succPct, h],
      mathRound_ratio _ _ h]
  · simp [succPct, h]
  · have h75 := mathRound_ratio 3 4 (by norm_num)
    norm_num at h75
    simp [succPct, Option.getD]
    norm_num [h75]

/-- Witness for C7 at the spec scenario `successReleases 3,
failedReleases 1, noChangeReleases 0`. -/
theorem deploy_health_percentage_witness :
    (0 < (3 : ℕ) + 1 + 0) ∧
    succPct ⟨some 3, some 1, some 0, none⟩ = some ((200 * 3 + 4) / (2 * 4)) := by
  refine ⟨by norm_num, ?_⟩
  have h := (deploy_health_percentage ⟨some 3, some 1, some 0, none⟩).1 (by norm_num)
  simpa using h.2

/-- Claim C8: for a legacy never-launched environment the overall
"ready to launch" flag is the conjunction of exactly the non-skipped
checks, and when no orchestration platform is detected (so the
credentials check is skipped), the skip does not change the AND over
the full checklist. -/
theorem readiness_all_nonskipped (env : EnvR) (vc : Option VarCounts) :
    (launchReadinessAllOk env vc = true ↔
      ∀ c ∈ launchReadinessChecks env vc, c.ok = true) ∧
    (hasKubernetesEnv env = false →
      launchReadinessAllOk env vc = (legacyChecks env vc).all (fun c => c.ok)) := by
  constructor
  · simp [launchReadinessAllOk, List.all_eq_true]
  · intro h
    simp [launchReadinessAllOk, launchReadinessChecks, legacyChecks, h]

/-- Witness for C8 at a concrete non-Kubernetes legacy environment. -/
theorem readiness_all_nonskipped_witness :
    hasKubernetesEnv envRunning = false ∧
    launchReadinessAllOk envRunning (some vcEx) =
      (legacyChecks envRunning (some vcEx)).all (fun c => c.ok) :=
  ⟨by decide, (readiness_all_nonskipped envRunning (some vcEx)).2 (by decide)⟩

/-- Claim C10: any cluster state absent from the `_headerCTAs` table
(UNKNOWN included) falls back to the STOPPED actions: a primary Launch
and a secondary Run Plan — never an empty set. -/
theorem header_cta_unmapped_fallback (st : String) (h : st ∉ ctaMappedStates) :
    headerCTAs st = headerCTAs "STOPPED" ∧
    headerCTAs st =
      [⟨"Launch", "launch", true, false⟩, ⟨"Run Plan", "plan", false, false⟩] := by
  have hfind : ctaTable.find? (fun p => p.1 == st) = none := by
    rw [List.find?_eq_none]
    intro p hp hbeq
    exact h (List.mem_map.mpr ⟨p, hp, beq_iff_eq.mp hbeq⟩)
  have hstop : headerCTAs "STOPPED" =
      [⟨"Launch", "launch", true, false⟩, ⟨"Run Plan", "plan", false, false⟩] := by
    decide
  have hself : headerCTAs st =
      [⟨"Launch", "launch", true, false⟩, ⟨"Run Plan", "plan", false, false⟩] := by
    unfold headerCTAs
    rw [hfind]
  exact ⟨hself.trans hstop.symm, hself⟩

/-- Witness for C10 at the UNKNOWN state. -/
theorem header_cta_unmapped_fallback_witness :
    "UNKNOWN" ∉ ctaMappedStates ∧
    headerCTAs "UNKNOWN" =
      [⟨"Launch", "launch", true, false⟩, ⟨"Run Plan", "plan", false, false⟩] :=
  ⟨by decide, (header_cta_unmapped_fallback "UNKNOWN" (by decide)).2⟩

/-- Helper: with the cache entry of a lazy tab present, `_loadTabData`
issues nothing and changes nothing. -/
theorem loadTab_noop_of_cached (s : WidgetState) (tab : Tab) (r : TabResults)
    (ht : tab = Tab.releases ∨ tab = Tab.resources ∨ tab = Tab.schedule)
    (h : tabCacheF s tab ≠ none) : loadTabData s tab r = (s, []) := by
  rcases ht with rfl | rfl | rfl
  · rcases hd : s.deployments with _ | d
    · exact absurd hd h
    · simp [loadTabData, hd]
  · rcases hd : s.resources with _ | d
    · exact absurd hd h
    · simp [loadTabData, hd]
  · rcases hd : s.schedule with _ | d
    · exact absurd hd h
    · simp [loadTabData, hd]

/-- Claim C1 (amended): a hard reload nulls out every cached data field
(overview, env, resource stats, variable counts and the five tab-cache
entries) before `_loadData` runs, the reload is exactly `_loadData` on
the cleared state, the reload issues no lazy tab fetch whatsoever — in
particular not the active tab's — and every tab-cache entry is still
absent when the reload finishes. -/
theorem hard_reload_clears_then_no_lazy_refetch (s : WidgetState) (r : CriticalResults) :
    (hardRefreshClear s).overview = none ∧
    (hardRefreshClear s).env = none ∧
    (hardRefreshClear s).resourceStats = none ∧
    (hardRefreshClear s).varCounts = none ∧
    (hardRefreshClear s).deployments = none ∧
    (hardRefreshClear s).resources = none ∧
    (hardRefreshClear s).ingresses = none ∧
    (hardRefreshClear s).schedule = none ∧
    (hardRefreshClear s).maintenanceWin = none ∧
    hardRefresh s r = loadData (hardRefreshClear s) r ∧
    (hardRefresh s r).2.filter isLazyFetch = [] ∧
    (hardRefresh s r).1.deployments = none ∧
    (hardRefresh s r).1.resources = none ∧
    (hardRefresh s r).1.ingresses = none ∧
    (hardRefresh s r).1.schedule = none ∧
    (hardRefresh s r).1.maintenanceWin = none := by
  refine ⟨rfl, rfl, rfl, rfl, rfl, rfl, rfl, rfl, rfl, rfl, ?_, ?_, ?_, ?_, ?_, ?_⟩ <;>
    unfold hardRefresh loadData <;>
    rcases hres : resolveOutcome (hardRefreshClear s) r.remote with m | cid <;>
    simp [hres, maybeStartRefresh_eq, resolveFetches, hardRefreshClear] <;>
    rcases s.clusterId with _ | c <;>
    simp [isLazyFetch]

/-- Counterexample for C1 as stated: with the releases tab active and its
page cached, a hard reload leaves the releases cache empty and issues no
releases-page fetch — the active tab's lazy data is not re-fetched. -/
theorem hard_reload_does_not_refetch_active_tab :
    sTabCached.activeTab = Tab.releases ∧
    sTabCached.deployments = some 7 ∧
    (hardRefresh sTabCached rRun).1.activeTab = Tab.releases ∧
    (hardRefresh sTabCached rRun).2.contains FetchReq.deploymentsPage = false ∧
    (hardRefresh sTabCached rRun).1.deployments = none := by decide

/-- Claim C2 (amended): a lazy tab's fetch set is issued on selection
exactly when its cache entry is absent: a selection finding the entry
present is a complete no-op apart from the tab switch, so once a fetch
has stored a non-absent payload, re-selecting fetches nothing more;
while the entry is absent every selection issues the tab's fetch set
(releases page; resources info plus ingress rules when Kubernetes is
detected; schedule plus maintenance window). -/
theorem lazy_fetch_guarded (s : WidgetState) (tab : Tab) (r1 r2 : TabResults)
    (ht : tab = Tab.releases ∨ tab = Tab.resources ∨ tab = Tab.schedule) :
    (tabCacheF s tab ≠ none →
      switchTab s tab r1 = ({ s with activeTab := tab }, [])) ∧
    (tabCacheF (switchTab s tab r1).1 tab ≠ none →
      (switchTab (switchTab s tab r1).1 tab r2).2 = []) ∧
    (tab = Tab.releases → s.deployments = none →
      (switchTab s tab r1).2 = [FetchReq.deploymentsPage]) ∧
    (tab = Tab.schedule → s.schedule = none →
      (switchTab s tab r1).2 = [FetchReq.scheduleList, FetchReq.maintenanceWindow]) ∧
    (tab = Tab.resources → s.resources = none →
      (switchTab s tab r1).2 =
        if hasKubernetes s then [FetchReq.resourcesInfo, FetchReq.ingressRules]
        else [FetchReq.resourcesInfo]) := by
  refine ⟨?_, ?_, ?_, ?_, ?_⟩
  · intro h
    exact loadTab_noop_of_cached _ tab r1 ht h
  · intro h
    have hc : tabCacheF { (switchTab s tab r1).1 with activeTab := tab } tab ≠ none := by
      cases tab <;> exact h
    exact congrArg Prod.snd
      (loadTab_noop_of_cached { (switchTab s tab r1).1 with activeTab := tab } tab r2 ht hc)
  · rintro rfl hd
    simp [switchTab, loadTabData, hd]
  · rintro rfl hd
    simp [switchTab, loadTabData, hd]
  · rintro rfl hd
    simp [switchTab, loadTabData, hd]
    split
    · next hcond =>
      have hk : hasKubernetes s = true := hcond
      simp [hk]
    · next hcond =>
      have hk : hasKubernetes s = false := by
        rcases h2 : hasKubernetes s with _ | _
        · rfl
        · exact absurd h2 hcond
      simp [hk]

/-- Counterexample for C2 as stated: when the first releases-page fetch
comes back absent, the cache entry stays absent and selecting the
releases tab a second time issues the page fetch again — the second
selection is not fetch-free. -/
theorem second_selection_refetches_when_absent :
    sRun.deployments = none ∧
    (switchTab sRun Tab.releases tabNoneR).2 = [FetchReq.deploymentsPage] ∧
    (switchTab (switchTab sRun Tab.releases tabNoneR).1 Tab.releases tabNoneR).2 =
      [FetchReq.deploymentsPage] := by decide

/-- Witness for the amended C2 at a concrete session whose releases page
was fetched and cached. -/
theorem lazy_fetch_guarded_witness :
    tabCacheF sTabCached Tab.releases ≠ none ∧
    switchTab sTabCached Tab.releases tabNoneR =
      ({ sTabCached with activeTab := Tab.releases }, []) := by
  refine ⟨by decide, ?_⟩
  exact (lazy_fetch_guarded sTabCached Tab.releases tabNoneR tabNoneR
    (Or.inl rfl)).1 (by decide)

/-- Claim C4 (amended): load operations carry no session token at all; a
refresh-tick overview response is applied to whatever state is current
when it resolves — a non-absent stale response always overwrites the
overview (and the env, when the response carries a cluster), and only an
absent response leaves the state unchanged. -/
theorem stale_refresh_not_discarded (s : WidgetState) (f : Overview) :
    ((refreshOverview s (some f)).1).overview = some f ∧
    ((refreshOverview s (some f)).1).env =
      (match f.cluster with
       | some e => some e
       | none => s.env) ∧
    (refreshOverview s none).1 = s := by
  refine ⟨?_, ?_, rfl⟩ <;>
    · simp only [refreshOverview]
      split <;> rfl

/-- Counterexample for C4 as stated: a refresh tick of the launching
session resolves after a hard reload already stored the new RUNNING
overview; the stale LAUNCHING response is not discarded and overwrites
the newer session's state. -/
theorem stale_refresh_overwrites_new_session :
    sHard.overview = some ovRunning ∧
    ((refreshOverview sHard (some ovLaunching)).1).overview = some ovLaunching ∧
    (refreshOverview sHard (some ovLaunching)).1 ≠ sHard := by decide

/-- Claim C5: only an identity-resolution failure makes the session
terminal: it records the error message, leaves the overview and env
absent (`_loadData` is entered with both null), and `_renderAll` then
shows only the boot error; a successful resolution never touches the
error field whatever the critical fetches return, and neither a lazy tab
load nor a refresh tick can ever set it. -/
theorem identity_failure_only_terminal :
    (∀ (s : WidgetState) (r : CriticalResults) (m : String),
      resolveOutcome s r.remote = Except.error m → s.overview = none →
      s.env = none → m ≠ "" →
      (loadData s r).1.error = some m ∧
      (loadData s r).1.overview = none ∧
      (loadData s r).1.env = none ∧
      sessionFailed (loadData s r).1 = true ∧
      renderAllMode (loadData s r).1 = RenderMode.bootError) ∧
    (∀ (s : WidgetState) (r : CriticalResults) (cid : String),
      resolveOutcome s r.remote = Except.ok cid →
      (loadData s r).1.error = s.error) ∧
    (∀ (s : WidgetState) (tab : Tab) (tr : TabResults),
      ((loadTabData s tab tr).1).error = s.error) ∧
    (∀ (s : WidgetState) (f : Option Overview),
      ((refreshOverview s f).1).error = s.error) := by
  refine ⟨?_, ?_, ?_, ?_⟩
  · intro s r m hres hov henv hm
    have hemp : m.isEmpty = false := by
      rcases he : m.isEmpty with _ | _
      · rfl
      · exact absurd ((String.isEmpty_iff m).mp he) hm
    refine ⟨?_, ?_, ?_, ?_, ?_⟩ <;>
      simp [loadData, hres, sessionFailed, renderAllMode, truthyS, hov, henv, hemp]
  · intro s r cid hres
    simp [loadData, hres, maybeStartRefresh_eq]
  · intro s tab tr
    unfold loadTabData
    split
    · rfl
    · split
      · split <;> rfl
      · split
        · rfl
        · rfl
  · intro s f
    rcases f with _ | f
    · rfl
    · simp only [refreshOverview]
      split <;> rfl

/-- Witness for C5: booting with no attributes and a failing resolution
call records the boot error and renders only it. -/
theorem identity_failure_only_terminal_witness :
    (loadData (initState none) rBoom).1.error =
      some "Could not resolve cluster ID from name" ∧
    (loadData (initState none) rBoom).1.overview = none ∧
    renderAllMode (loadData (initState none) rBoom).1 = RenderMode.bootError := by
  have h := identity_failure_only_terminal.1 (initState none) rBoom
    "Could not resolve cluster ID from name" rfl rfl rfl (by decide)
  exact ⟨h.1, h.2.1, h.2.2.2.2⟩

/-- Claim C3 (amended): pollingActive is exactly "some in-progress
deployment, or clusterState among LAUNCHING / DESTROYING / SCALING_UP /
SCALING_DOWN"; at critical-phase completion the 15-second timer ends up
running iff pollingActive is true or a timer was already running (an
inactive evaluation does not stop a leftover timer); a tick whose fetch
returns data leaves the timer running iff the recomputed pollingActive
is true; a tick whose fetch returns absent changes nothing, so it never
stops the timer. -/
theorem polling_gate_and_timer :
    (∀ s : WidgetState, pollingActiveState s = true ↔
      ((∃ o, s.overview = some o ∧ o.inProgressDeployments ≠ []) ∨
       (∃ e st, s.env = some e ∧ e.clusterState = some st ∧
         (st = "LAUNCHING" ∨ st = "DESTROYING" ∨ st = "SCALING_UP" ∨
          st = "SCALING_DOWN")))) ∧
    (∀ (s : WidgetState) (r : CriticalResults) (cid : String),
      resolveOutcome s r.remote = Except.ok cid →
      ((loadData s r).1).refreshTimer =
        (pollingActiveState (loadData s r).1 || s.refreshTimer)) ∧
    (∀ (s : WidgetState) (f : Overview), s.refreshTimer = true →
      ((refreshOverview s (some f)).1).refreshTimer =
        pollingActiveState (refreshOverview s (some f)).1) ∧
    (∀ s : WidgetState, (refreshOverview s none).1 = s) := by
  refine ⟨?_, ?_, ?_, fun s => rfl⟩
  · intro s
    unfold pollingActiveState
    rcases ho : s.overview with _ | o <;> rcases he : s.env with _ | e <;>
      simp [ho, he, activeStates]
    · rcases hst : e.clusterState with _ | st <;> simp [hst]
    · rcases hst : e.clusterState with _ | st <;> simp [hst]
  · intro s r cid hres
    simp [loadData, hres, maybeStartRefresh_eq, pollingActiveState]
  · intro s f ht
    simp only [refreshOverview]
    split
    · next hpa =>
      rw [ht]
      exact hpa.symm
    · next hpa =>
      have : pollingActiveState
          { s with overview := some f,
                   env := match f.cluster with
                          | some e => some e
                          | none => s.env,
                   refreshTimer := false } = false := by
        rcases h2 : pollingActiveState
            { s with overview := some f,
                     env := match f.cluster with
                            | some e => some e
                            | none => s.env } with _ | _
        · exact h2
        · exact absurd h2 hpa
      exact this.symm

/-- Witness for C3: the LAUNCHING session starts its timer at
critical-phase completion. -/
theorem polling_gate_and_timer_witness :
    resolveOutcome (initState (some "c1")) rLaunch.remote = Except.ok "c1" ∧
    sLaunch.refreshTimer =
      (pollingActiveState sLaunch || (initState (some "c1")).refreshTimer) := by
  refine ⟨rfl, ?_⟩
  exact polling_gate_and_timer.2.1 (initState (some "c1")) rLaunch "c1" rfl

/-- Counterexample for C3 as stated: after a hard reload of the polling
LAUNCHING session, the new critical phase observes RUNNING —
pollingActive evaluates false — yet the leftover timer keeps running,
and it is still running after a further tick whose fetch returns
absent. -/
theorem stale_timer_survives_inactive_evaluation :
    pollingActiveState sHard = false ∧
    sHard.refreshTimer = true ∧
    ((refreshOverview sHard none).1).refreshTimer = true := by decide

/-- A portion separator is not a segment character. -/
theorem segChar_of_hashQ (c : Char) (h : hashQ c = true) : segChar c = false := by
  simp [hashQ] at h
  rcases h with rfl | rfl <;> rfl

/-- A blocked tail does not extend a leading segment-character run. -/
theorem takeWhile_append_blocked (l tail : List Char) (ht : blockedL tail = true) :
    (l ++ tail).takeWhile segChar = l.takeWhile segChar := by
  induction l with
  | nil =>
    rcases tail with _ | ⟨c, cs⟩
    · rfl
    · have hq : hashQ c = true := by simpa [blockedL] using ht
      simp [List.takeWhile_cons, segChar_of_hashQ c hq]
  | cons a l ih =>
    simp only [List.cons_append, List.takeWhile_cons]
    split <;> simp [ih]

/-- Dual of `takeWhile_append_blocked`. -/
theorem dropWhile_append_blocked (l tail : List Char) (ht : blockedL tail = true) :
    (l ++ tail).dropWhile segChar = l.dropWhile segChar ++ tail := by
  induction l with
  | nil =>
    rcases tail with _ | ⟨c, cs⟩
    · rfl
    · have hq : hashQ c = true := by simpa [blockedL] using ht
      simp [List.dropWhile_cons, segChar_of_hashQ c hq]
  | cons a l ih =>
    simp only [List.cons_append, List.dropWhile_cons]
    split <;> simp [ih]

/-- Appending a blocked tail commutes with segment capture. -/
theorem parseSeg_append (l tail : List Char) (ht : blockedL tail = true) :
    parseSeg (l ++ tail) = (parseSeg l).map (fun p => (p.1, p.2 ++ tail)) := by
  unfold parseSeg
  rw [takeWhile_append_blocked l tail ht, dropWhile_append_blocked l tail ht]
  rcases h : l.takeWhile segChar with _ | ⟨c, cs⟩ <;> simp

/-- Appending a blocked tail commutes with consuming a literal that has
no portion separators in it. -/
theorem dropLit_append (p : List Char) :
    ∀ (l tail : List Char), p.all (fun c => !hashQ c) = true →
    blockedL tail = true →
    dropLit p (l ++ tail) = (dropLit p l).map (fun r => r ++ tail) := by
  induction p with
  | nil => intro l tail hp ht; rfl
  | cons q ps ih =>
    intro l tail hp ht
    simp only [List.all_cons, Bool.and_eq_true] at hp
    rcases l with _ | ⟨c, cs⟩
    · rcases tail with _ | ⟨c, cs⟩
      · rfl
      · have hq : hashQ c = true := by simpa [blockedL] using ht
        have hcq : (c == q) = false := by
          rcases Bool.eq_false_or_eq_true (c == q) with h | h
          swap
          · exact h
          · exfalso
            have hc : c = q := beq_iff_eq.mp h
            subst hc
            rw [hq] at hp
            simp at hp
        simp [dropLit, hcq]
    · rcases hcq : c == q with _ | _
      · simp [dropLit, hcq]
      · simp only [List.cons_append]
        simp [dropLit, hcq, ih cs tail hp.2 ht]

/-- Appending a blocked tail does not change whether (or what) the route
pattern matches at the current position. -/
theorem tryAt_append (l tail : List Char) (ht : blockedL tail = true) :
    tryAt (l ++ tail) = tryAt l := by
  unfold tryAt
  rw [dropLit_append "/projects/".toList l tail (by decide) ht]
  rcases hd : dropLit "/projects/".toList l with _ | r1
  · rfl
  · simp only [Option.map_some']
    rw [parseSeg_append r1 tail ht]
    rcases hp1 : parseSeg r1 with _ | ⟨a, r2⟩
    · rfl
    · simp only [Option.map_some']
      rw [dropLit_append "/environments/".toList r2 tail (by decide) ht]
      rcases hd2 : dropLit "/environments/".toList r2 with _ | r3
      · rfl
      · simp only [Option.map_some']
        rw [parseSeg_append r3 tail ht]
        rcases hp2 : parseSeg r3 with _ | ⟨b, r4⟩ <;> rfl

/-- A first match found before a blocked tail is unchanged by the tail. -/
theorem matchProjEnv_append_some (l tail : List Char) (r : List Char × List Char)
    (hm : matchProjEnv l = some r) (ht : blockedL tail = true) :
    matchProjEnv (l ++ tail) = some r := by
  induction l with
  | nil => simp [matchProjEnv] at hm
  | cons c cs ih =>
    simp only [List.cons_append]
    rw [show matchProjEnv (c :: (cs ++ tail)) =
        match tryAt (c :: (cs ++ tail)) with
        | some r2 => some r2
        | none => matchProjEnv (cs ++ tail) from rfl]
    rw [show (c :: (cs ++ tail)) = ((c :: cs) ++ tail) from rfl,
      tryAt_append (c :: cs) tail ht]
    rw [show matchProjEnv (c :: cs) =
        match tryAt (c :: cs) with
        | some r2 => some r2
        | none => matchProjEnv cs from rfl] at hm
    rcases h : tryAt (c :: cs) with _ | r2
    · rw [h] at hm
      simp only at hm
      exact ih hm
    · rw [h] at hm
      simpa using hm

/-- Concatenating blocked portions stays blocked. -/
theorem blockedL_append (x y : List Char) (hx : blockedL x = true)
    (hy : blockedL y = true) : blockedL (x ++ y) = true := by
  rcases x with _ | ⟨c, cs⟩
  · simpa using hy
  · simpa [blockedL] using hx

/-- Claim C9: on any real location (hash empty or starting with `#`,
search empty or starting with `?`), the Context Resolver is
first-match-wins: a non-empty `clusterId` query parameter — or, failing
that, a non-empty `cluster-id` one — yields only the id, whatever the
path contains; with neither present, the pattern
`/projects/{stack}/environments/{cluster}` found in the path portion
yields the two percent-decoded names. -/
theorem url_context_first_match (u : UrlLoc)
    (hh : blockedStr u.hashStr = true) (hs : blockedStr u.searchStr = true) :
    (∀ v : String, qpGet u.searchParams "clusterId" = some v → v ≠ "" →
      tryUrlContext u = ⟨some v, none, none⟩) ∧
    (∀ v : String, truthyS (qpGet u.searchParams "clusterId") = false →
      qpGet u.searchParams "cluster-id" = some v → v ≠ "" →
      tryUrlContext u = ⟨some v, none, none⟩) ∧
    (∀ (a b sa sb : List Char),
      truthyS (qpGet u.searchParams "clusterId") = false →
      truthyS (qpGet u.searchParams "cluster-id") = false →
      matchProjEnv u.pathname.toList = some (a, b) →
      pctDecode a = some sa → pctDecode b = some sb →
      tryUrlContext u = ⟨none, some (String.mk sa), some (String.mk sb)⟩) := by
  refine ⟨?_, ?_, ?_⟩
  · intro v hv hne
    have hemp : v.isEmpty = false := by
      rcases he : v.isEmpty with _ | _
      · rfl
      · exact absurd ((String.isEmpty_iff v).mp he) hne
    simp [tryUrlContext, hv, truthyS, hemp]
  · intro v h1 hv hne
    have hemp : v.isEmpty = false := by
      rcases he : v.isEmpty with _ | _
      · rfl
      · exact absurd ((String.isEmpty_iff v).mp he) hne
    have hc2 : truthyS (qpGet u.searchParams "cluster-id") = true := by
      rw [hv]
      simp [truthyS, hemp]
    simp [tryUrlContext, h1, hc2, hv]
    intro hcon
    simp [truthyS, hemp] at hcon
  · intro a b sa sb h1 h2 hm hda hdb
    have htl : (u.pathname ++ u.hashStr ++ u.searchStr).toList
        = u.pathname.toList ++ (u.hashStr.toList ++ u.searchStr.toList) := by
      simp [String.toList, String.data_append, List.append_assoc]
    have hblocked : blockedL (u.hashStr.toList ++ u.searchStr.toList) = true :=
      blockedL_append _ _ hh hs
    have hfull : matchProjEnv
        (u.pathname.data ++ (u.hashStr.data ++ u.searchStr.data)) = some (a, b) :=
      matchProjEnv_append_some _ _ _ hm hblocked
    simp [tryUrlContext, h1, h2, hfull, decodePair, hda, hdb]

/-- Witness for C9 at the two spec scenarios:
`/somewhere?clusterId=abc123` resolves to the id alone, and
`/projects/Acme/environments/prod-1` with no query resolves to the two
names. -/
theorem url_context_first_match_witness :
    tryUrlContext locQuery = ⟨some "abc123", none, none⟩ ∧
    tryUrlContext locPath = ⟨none, some "Acme", some "prod-1"⟩ := by
  constructor
  · exact (url_context_first_match locQuery (by decide) (by decide)).1
      "abc123" rfl (by decide)
  · exact (url_context_first_match locPath (by decide) (by decide)).2.2
      "Acme".toList "prod-1".toList "Acme".toList "prod-1".toList
      rfl rfl (by decide) (by decide) (by decide)
